import Mathlib

/-!
Shallow embedding of the motorized-blinds controller firmware
(`src/main/position_sensor.cpp`, `src/main/controller.cpp`,
`src/main/button_handler.cpp`, `src/main/button_handler.h`).

Modelling conventions:
* C `uint32_t` values are `Nat`; where the C arithmetic can wrap we write the
  wrap explicitly (`% U32`, `u32sub`).
* The external collaborators that are not part of src/ (motor driver, NVS
  store, ADC sampling, FreeRTOS tasks) are modelled from the spec's interface
  description (section 6): raw ADC samples become explicit `Int` inputs
  (negative = error), the NVS contents become an explicit `NvsData` input,
  the motor becomes a small record, and periodic tasks become functions over
  the finite list of their poll-cycle observations.
* C `float` arithmetic is modelled with exact rationals (`ℚ`).
* Each module's file-level `static` variables become fields of a state record
  (`SensorState`, `CtrlState`); every C function that touches them becomes a
  state-passing Lean function of the same name.
-/

namespace Esp32H6

/-- 2^32, the modulus of C `uint32_t` arithmetic. -/
def U32 : Nat := 4294967296

/-- C `uint32_t` subtraction `a - b` (wraps modulo 2^32). -/
def u32sub (a b : Nat) : Nat := (a % U32 + U32 - b % U32) % U32

/-- Kconfig constant `CONFIG_MOTOR_DEFAULT_SPEED`; its concrete value is not
fixed by src/ and none of the verified properties depend on it. -/
def CONFIG_MOTOR_DEFAULT_SPEED : Nat := 1000

/-- `calibration_step_t` (position_sensor.h): the guided-calibration steps. -/
inductive calibration_step_t where
  | upper
  | lower
  | zebra_offset
  | complete
deriving DecidableEq

/-- `position_config_t`: the calibrated-range state owned by the position
sensor (position_sensor.cpp, `position_config`). -/
structure position_config_t where
  min_position : Nat
  max_position : Nat
  current_position : Nat
  calibrated : Bool
deriving DecidableEq

/-- All file-level mutable state of position_sensor.cpp: `position_config`,
the 5-sample smoothing buffer (a function-local `static` of
`position_sensor_read`), and the step-calibration statics. -/
structure SensorState where
  position_config : position_config_t
  filter_buffer : List Nat
  filter_index : Nat
  current_calibration_step : calibration_step_t
  calibration_upper_position : Nat
  calibration_lower_position : Nat
  calibration_zebra_offset : Nat
  calibration_zebra_enabled : Bool
deriving DecidableEq

/-- Sensor state right after `position_sensor_init` plus the C static
initializers: `min=100`, `max=3900`, `current=0`, uncalibrated, zeroed filter
buffer, step `COMPLETE`, `upper=0`, `lower=0`, `zebra_offset=100`. -/
def sensor_boot : SensorState :=
  { position_config :=
      { min_position := 100
      , max_position := 3900
      , current_position := 0
      , calibrated := false }
  , filter_buffer := [0, 0, 0, 0, 0]
  , filter_index := 0
  , current_calibration_step := .complete
  , calibration_upper_position := 0
  , calibration_lower_position := 0
  , calibration_zebra_offset := 100
  , calibration_zebra_enabled := false }

/-- `position_sensor_read` (position_sensor.cpp:84-138). The raw ADC sample
(`adc1_get_raw`, an external collaborator) is an explicit `Int` argument;
a negative sample is the error path returning the cached
`current_position`. Otherwise the sample enters the 5-slot circular filter
buffer, the (uint32, hence `% U32`) sum is averaged, the average is clamped
to `[min_position, max_position]` and cached. The model is post-`init` (the
controller always initializes the sensor before any read). -/
def position_sensor_read (s : SensorState) (raw_value : Int) : Nat × SensorState :=
  if raw_value < 0 then
    (s.position_config.current_position, s)
  else
    let adc_sample := raw_value.toNat
    let buf := s.filter_buffer.set s.filter_index adc_sample
    let idx := (s.filter_index + 1) % 5
    let sum := buf.foldl (fun a b => (a + b) % U32) 0
    let avg := sum / 5
    let adc_value :=
      if avg < s.position_config.min_position then s.position_config.min_position
      else if avg > s.position_config.max_position then s.position_config.max_position
      else avg
    (adc_value,
      { s with
        filter_buffer := buf
        filter_index := idx
        position_config := { s.position_config with current_position := adc_value } })

/-- `position_sensor_set_calibration` (position_sensor.cpp:140-153):
rejects `min_pos >= max_pos` with no state change, otherwise sets the bounds
and marks calibrated. -/
def position_sensor_set_calibration (s : SensorState) (min_pos max_pos : Nat) : SensorState :=
  if min_pos ≥ max_pos then s
  else
    { s with
      position_config :=
        { s.position_config with
          min_position := min_pos
          max_position := max_pos
          calibrated := true } }

/-- `position_sensor_is_calibrated` (position_sensor.cpp:187-190). -/
def position_sensor_is_calibrated (s : SensorState) : Bool :=
  s.position_config.calibrated

/-- `position_sensor_get_min_position` (position_sensor.cpp:330-333). -/
def position_sensor_get_min_position (s : SensorState) : Nat :=
  s.position_config.min_position

/-- `position_sensor_get_max_position` (position_sensor.cpp:335-338). -/
def position_sensor_get_max_position (s : SensorState) : Nat :=
  s.position_config.max_position

/-- `position_sensor_get_zebra_offset` (position_sensor.cpp:325-328). -/
def position_sensor_get_zebra_offset (s : SensorState) : Nat :=
  s.calibration_zebra_offset

/-- `position_sensor_get_percentage` (position_sensor.cpp:192-219), with the
C `float` arithmetic modelled exactly in `ℚ`. Threads the sensor state
because it performs a `read`. -/
def position_sensor_get_percentage (s : SensorState) (raw_value : Int) : ℚ × SensorState :=
  if !s.position_config.calibrated then (0, s)
  else
    let r := position_sensor_read s raw_value
    let current := r.1
    let s := r.2
    if current ≤ s.position_config.min_position then (0, s)
    else if current ≥ s.position_config.max_position then (100, s)
    else
      ((((current : ℚ) - (s.position_config.min_position : ℚ)) /
          ((s.position_config.max_position : ℚ) - (s.position_config.min_position : ℚ))) * 100,
        s)

/-- Contents of the external NVS store as seen by
`position_sensor_start_calibration`: whether `nvs_open` succeeded and, for
each key, the stored value when `nvs_get_u32` succeeds. -/
structure NvsData where
  openOk : Bool
  upper_position : Option Nat
  lower_position : Option Nat
  zebra_offset : Option Nat
deriving DecidableEq

/-- NVS with nothing stored (fresh device): `nvs_open` fails. -/
def nvs_absent : NvsData :=
  { openOk := false, upper_position := none, lower_position := none, zebra_offset := none }

/-- `position_sensor_start_calibration` (position_sensor.cpp:222-260).
`zebraSupport` is the compile-time `CONFIG_ZEBRA_BLINDS_SUPPORT` flag; the
NVS contents are an explicit input. On a successful open each key falls back
to its default (`upper=0`, `lower=4095`, `zebra_offset=100`) when the read
fails; the step is reset to `UPPER`. The C function returns the (always
non-NULL) step-description resolver; the prompt text itself is presentation
only, so the model keeps just the state change. -/
def position_sensor_start_calibration (zebraSupport : Bool) (nvs : NvsData)
    (s : SensorState) : SensorState :=
  let s := { s with calibration_zebra_enabled := zebraSupport }
  let s :=
    if nvs.openOk then
      { s with
        calibration_upper_position := nvs.upper_position.getD 0
        calibration_lower_position := nvs.lower_position.getD 4095
        calibration_zebra_offset := nvs.zebra_offset.getD 100 }
    else s
  { s with current_calibration_step := .upper }

/-- `position_sensor_next_calibration_step` (position_sensor.cpp:262-294):
advances `UPPER → LOWER → (ZEBRA_OFFSET when enabled) → COMPLETE` and returns
the new step; once `COMPLETE` it stays `COMPLETE`. -/
def position_sensor_next_calibration_step (s : SensorState) :
    calibration_step_t × SensorState :=
  if s.current_calibration_step = .complete then
    (.complete, s)
  else
    let next :=
      match s.current_calibration_step with
      | .upper => calibration_step_t.lower
      | .lower =>
          if s.calibration_zebra_enabled then calibration_step_t.zebra_offset
          else calibration_step_t.complete
      | .zebra_offset => calibration_step_t.complete
      | .complete => calibration_step_t.complete
    (next, { s with current_calibration_step := next })

/-- `position_sensor_save_calibration_step` (position_sensor.cpp:296-323):
records `position` for the current step; on `LOWER` it additionally commits
`set_calibration(upper, lower)` when `upper < lower`. The `COMPLETE` case
only writes to NVS (external, no in-memory state change). -/
def position_sensor_save_calibration_step (s : SensorState) (position : Nat) : SensorState :=
  match s.current_calibration_step with
  | .upper => { s with calibration_upper_position := position }
  | .lower =>
      let s := { s with calibration_lower_position := position }
      if s.calibration_upper_position < s.calibration_lower_position then
        position_sensor_set_calibration s
          s.calibration_upper_position s.calibration_lower_position
      else s
  | .zebra_offset => { s with calibration_zebra_offset := position }
  | .complete => s

/-- `state_t` (controller.h): the controller states. -/
inductive state_t where
  | IDLE
  | MOVING_UP
  | MOVING_DOWN
  | CALIBRATING
deriving DecidableEq

/-- `motor_direction_t` (motor_control.h interface). -/
inductive motor_direction_t where
  | MOTOR_DIR_UP
  | MOTOR_DIR_DOWN
deriving DecidableEq

/-- `button_event_t` / `custom_button_event_t` (button_handler.h:14-24):
the event kinds the controller callback dispatches on.
`BUTTON_PRESS_UP` is the Release event (`BUTTON_EVENT_RELEASE`). -/
inductive button_event_t where
  | BUTTON_SINGLE_CLICK
  | BUTTON_DOUBLE_CLICK
  | BUTTON_LONG_PRESS_START
  | BUTTON_PRESS_UP
  | BUTTON_EVENT_SIMULTANEOUS_PRESS
deriving DecidableEq

/-- `button_id_t` (button_handler.h:27-31). -/
inductive button_id_t where
  | BUTTON_ID_UP
  | BUTTON_ID_DOWN
deriving DecidableEq

/-- Modelled from the spec: the motor driver (`motor_control`) is not under
src/; spec section 6 gives its interface `set_direction`, `set_speed(u32)`,
`step(count)`, `is_moving() -> bool`, `stop()`. `step` (always called with a
positive count by the controller) starts movement, `stop` halts it. -/
structure MotorState where
  direction : motor_direction_t
  speed : Nat
  moving : Bool
deriving DecidableEq

/-- Modelled from the spec: `motor_set_direction`. -/
def motor_set_direction (m : MotorState) (d : motor_direction_t) : MotorState :=
  { m with direction := d }

/-- Modelled from the spec: `motor_set_speed`. -/
def motor_set_speed (m : MotorState) (v : Nat) : MotorState :=
  { m with speed := v }

/-- Modelled from the spec: `motor_step` issues a step command, after which
the motor reports moving. -/
def motor_step (m : MotorState) (_count : Nat) : MotorState :=
  { m with moving := true }

/-- Modelled from the spec: `motor_stop`. -/
def motor_stop (m : MotorState) : MotorState :=
  { m with moving := false }

/-- Modelled from the spec: `motor_is_moving`. -/
def motor_is_moving (m : MotorState) : Bool :=
  m.moving

/-- All file-level mutable state of controller.cpp: `g_config.state`,
`g_config.auto_calibrate`, `g_config.position.current_position`,
`g_button_held`, `g_calibration_callback` (modelled as the Bool
"a callback is installed" — the installed function is always the sensor's
step-description resolver), `g_boundary_check_task` (the Bool "a task handle
is alive"), the `static bool last_direction_up` local to
`controller_handle_zebra_offset`, plus the owned sensor and motor states.
`last_prompt` records which calibration step was last prompted to the
operator (the `ESP_LOGI` of the step description), making the prompts
observable. -/
structure CtrlState where
  state : state_t
  auto_calibrate : Bool
  current_position : Nat
  button_held : Bool
  calibration_callback : Bool
  boundary_task : Bool
  last_direction_up : Bool
  last_prompt : Option calibration_step_t
  sensor : SensorState
  motor : MotorState
deriving DecidableEq

/-- Controller state right after `controller_init` (controller.cpp:26-44) on
a fresh (uncalibrated) device. -/
def controller_boot : CtrlState :=
  { state := .IDLE
  , auto_calibrate := !(position_sensor_is_calibrated sensor_boot)
  , current_position := 0
  , button_held := false
  , calibration_callback := false
  , boundary_task := false
  , last_direction_up := false
  , last_prompt := none
  , sensor := sensor_boot
  , motor := { direction := .MOTOR_DIR_UP, speed := 0, moving := false } }

/-- `controller_get_state` (controller.cpp:206-209). -/
def controller_get_state (c : CtrlState) : state_t :=
  c.state

/-- `controller_stop` (controller.cpp:140-157): stops the motor when it is
moving (idempotent), sets the state to `IDLE` and clears `g_button_held`. -/
def controller_stop (c : CtrlState) : CtrlState :=
  let motor := if motor_is_moving c.motor then motor_stop c.motor else c.motor
  { c with motor := motor, state := .IDLE, button_held := false }

/-- `controller_calibrate` (controller.cpp:159-174): sets state
`CALIBRATING`, then calls `controller_stop` (which resets the state to
`IDLE`), installs the calibration callback via
`position_sensor_start_calibration`, and — the callback being non-NULL —
calls `position_sensor_next_calibration_step` and prompts the step it
returns. -/
def controller_calibrate (zebraSupport : Bool) (nvs : NvsData) (c : CtrlState) : CtrlState :=
  let c := { c with state := .CALIBRATING }
  let c := controller_stop c
  let c :=
    { c with
      sensor := position_sensor_start_calibration zebraSupport nvs c.sensor
      calibration_callback := true }
  let r := position_sensor_next_calibration_step c.sensor
  { c with sensor := r.2, last_prompt := some r.1 }

/-- `controller_check_boundaries_and_stop` (controller.cpp:429-449): when
calibrated, reads the position and, if it is at or beyond either bound,
stops; returns whether it stopped. The raw ADC sample consumed by the read
is an explicit argument. -/
def controller_check_boundaries_and_stop (c : CtrlState) (raw_value : Int) :
    Bool × CtrlState :=
  if !(position_sensor_is_calibrated c.sensor) then (false, c)
  else
    let r := position_sensor_read c.sensor raw_value
    let current_pos := r.1
    let c := { c with sensor := r.2 }
    let min_pos := position_sensor_get_min_position c.sensor
    let max_pos := position_sensor_get_max_position c.sensor
    if current_pos ≤ min_pos || current_pos ≥ max_pos then
      (true, controller_stop c)
    else (false, c)

/-- `controller_move_to_position` (controller.cpp:46-96): reads the current
position, returns if already at the target, otherwise sets direction
(down when target > current, as the evident intent of the stray `;` on
line 66), speed and a step count equal to the absolute delta, records the
target as the cached `current_position` and immediately performs one
boundary check. `raw1`/`raw2` are the ADC samples consumed by the two
reads. -/
def controller_move_to_position (c : CtrlState) (position : Nat) (raw1 raw2 : Int) :
    CtrlState :=
  if c.state = .CALIBRATING then c
  else
    let r := position_sensor_read c.sensor raw1
    let current_pos := r.1
    let c := { c with sensor := r.2 }
    if current_pos = position then c
    else
      let direction :=
        if position > current_pos then motor_direction_t.MOTOR_DIR_DOWN
        else motor_direction_t.MOTOR_DIR_UP
      let motor := motor_set_direction c.motor direction
      let position_diff :=
        if position > current_pos then position - current_pos else current_pos - position
      let motor := motor_set_speed motor CONFIG_MOTOR_DEFAULT_SPEED
      let motor := motor_step motor position_diff
      let c :=
        { c with
          motor := motor
          state := if direction = .MOTOR_DIR_UP then state_t.MOVING_UP else state_t.MOVING_DOWN
          current_position := position }
      (controller_check_boundaries_and_stop c raw2).2

/-- `controller_move_up` (controller.cpp:98-117): continuous upward motion
with a maximal (`UINT32_MAX`) step count. -/
def controller_move_up (c : CtrlState) : CtrlState :=
  if c.state = .CALIBRATING then c
  else
    let motor := motor_set_direction c.motor .MOTOR_DIR_UP
    let motor := motor_set_speed motor CONFIG_MOTOR_DEFAULT_SPEED
    let motor := motor_step motor (U32 - 1)
    { c with motor := motor, state := .MOVING_UP }

/-- `controller_move_down` (controller.cpp:119-138). -/
def controller_move_down (c : CtrlState) : CtrlState :=
  if c.state = .CALIBRATING then c
  else
    let motor := motor_set_direction c.motor .MOTOR_DIR_DOWN
    let motor := motor_set_speed motor CONFIG_MOTOR_DEFAULT_SPEED
    let motor := motor_step motor (U32 - 1)
    { c with motor := motor, state := .MOVING_DOWN }

/-- `controller_goto_top` (controller.cpp:176-189). -/
def controller_goto_top (c : CtrlState) (raw1 raw2 : Int) : CtrlState :=
  if position_sensor_is_calibrated c.sensor then
    controller_move_to_position c (position_sensor_get_min_position c.sensor) raw1 raw2
  else c

/-- `controller_goto_bottom` (controller.cpp:191-204). -/
def controller_goto_bottom (c : CtrlState) (raw1 raw2 : Int) : CtrlState :=
  if position_sensor_is_calibrated c.sensor then
    controller_move_to_position c (position_sensor_get_max_position c.sensor) raw1 raw2
  else c

/-- The target computation of `controller_set_position_percentage`
(controller.cpp:229-232): `min_pos + (uint32_t)(range * percentage / 100.0f)`
with `range = max_pos - min_pos` in uint32 arithmetic, the float arithmetic
exact in `ℚ`, and the float-to-uint32 cast a floor (the value is
non-negative for the clamped percentages the caller supplies). -/
def percentage_target (min_pos max_pos : Nat) (percentage : ℚ) : Nat :=
  let range := u32sub max_pos min_pos
  (min_pos + (Int.floor ((range : ℚ) * percentage / 100)).toNat) % U32

/-- The input clamp of `controller_set_position_percentage`
(controller.cpp:218-221). -/
def clamp_percentage (percentage : ℚ) : ℚ :=
  let percentage := if percentage < 0 then 0 else percentage
  if percentage > 100 then 100 else percentage

/-- `controller_set_position_percentage` (controller.cpp:216-243): clamps
the percentage to `[0,100]`; when calibrated, performs the two (logging-only)
reads, computes the target and moves to it. `raw1..raw4` are the ADC samples
of the up-to-four reads performed along the way. -/
def controller_set_position_percentage (c : CtrlState) (percentage : ℚ)
    (raw1 raw2 raw3 raw4 : Int) : CtrlState :=
  let percentage := clamp_percentage percentage
  if position_sensor_is_calibrated c.sensor then
    let r1 := position_sensor_read c.sensor raw1
    let c := { c with sensor := r1.2 }
    let r2 := position_sensor_get_percentage c.sensor raw2
    let c := { c with sensor := r2.2 }
    let target_position :=
      percentage_target (position_sensor_get_min_position c.sensor)
        (position_sensor_get_max_position c.sensor) percentage
    controller_move_to_position c target_position raw3 raw4
  else c

/-- `controller_handle_zebra_offset` (controller.cpp:363-426, compiled under
`CONFIG_ZEBRA_BLINDS_SUPPORT`): computes a target one zebra offset away from
the current position — toward the inside when within one offset of a bound,
alternating (`last_direction_up`) otherwise — then clamps the target to the
**hardcoded** `min_pos = 0`, `max_pos = 4095` (the calls to the calibrated
getters are commented out in the source) and moves to it. -/
def controller_handle_zebra_offset (c : CtrlState) (raw1 raw2 raw3 : Int) : CtrlState :=
  if !(position_sensor_is_calibrated c.sensor) then c
  else
    let zebra_offset := position_sensor_get_zebra_offset c.sensor
    if zebra_offset = 0 then c
    else
      let r := position_sensor_read c.sensor raw1
      let current_pos := r.1
      let c := { c with sensor := r.2 }
      let min_pos : Nat := 0
      let max_pos : Nat := 4095
      let tc :=
        if current_pos ≤ (min_pos + zebra_offset) % U32 then
          ((current_pos + zebra_offset) % U32, c)
        else if current_pos ≥ u32sub max_pos zebra_offset then
          (u32sub current_pos zebra_offset, c)
        else
          let t :=
            if c.last_direction_up then u32sub current_pos zebra_offset
            else (current_pos + zebra_offset) % U32
          (t, { c with last_direction_up := !c.last_direction_up })
      let target_pos := tc.1
      let c := tc.2
      let target_pos :=
        if target_pos < min_pos then min_pos
        else if target_pos > max_pos then max_pos
        else target_pos
      controller_move_to_position c target_pos raw2 raw3

/-- The `i`-th raw ADC sample of the environment's sample list; an exhausted
list yields an error sample (negative). -/
def rawAt (raws : List Int) (i : Nat) : Int :=
  raws.getD i (-1)

/-- `controller_button_callback` (controller.cpp:245-361): the controller's
event dispatch. `zebraSupport` is the compile-time
`CONFIG_ZEBRA_BLINDS_SUPPORT` flag (it selects the DOUBLE_CLICK behaviour),
`nvs` the NVS contents consulted when calibration starts, and `raws` the
raw ADC samples consumed, in order, by the position reads the handled event
performs. -/
def controller_button_callback (zebraSupport : Bool) (nvs : NvsData) (c : CtrlState)
    (event : button_event_t) (button_id : button_id_t) (raws : List Int) : CtrlState :=
  match event with
  | .BUTTON_EVENT_SIMULTANEOUS_PRESS =>
      if c.state = .CALIBRATING then
        let c := { c with state := .IDLE, calibration_callback := false }
        controller_stop c
      else
        controller_calibrate zebraSupport nvs c
  | .BUTTON_SINGLE_CLICK =>
      if c.state = .CALIBRATING && c.calibration_callback then
        let r := position_sensor_read c.sensor (rawAt raws 0)
        let current_position := r.1
        let sensor := position_sensor_save_calibration_step r.2 current_position
        let r2 := position_sensor_next_calibration_step sensor
        let next_step := r2.1
        let c := { c with sensor := r2.2 }
        if next_step = .complete then
          let c := { c with state := .IDLE, calibration_callback := false }
          controller_stop c
        else
          { c with last_prompt := some next_step }
      else
        if button_id = .BUTTON_ID_UP then
          controller_goto_top c (rawAt raws 0) (rawAt raws 1)
        else
          controller_goto_bottom c (rawAt raws 0) (rawAt raws 1)
  | .BUTTON_DOUBLE_CLICK =>
      if c.state ≠ .CALIBRATING then
        if zebraSupport then
          if position_sensor_is_calibrated c.sensor &&
              position_sensor_get_zebra_offset c.sensor > 0 then
            controller_handle_zebra_offset c (rawAt raws 0) (rawAt raws 1) (rawAt raws 2)
          else c
        else
          controller_set_position_percentage c 50
            (rawAt raws 0) (rawAt raws 1) (rawAt raws 2) (rawAt raws 3)
      else c
  | .BUTTON_LONG_PRESS_START =>
      if c.state ≠ .CALIBRATING then
        let c := { c with button_held := true }
        let c :=
          if button_id = .BUTTON_ID_UP then controller_move_up c
          else controller_move_down c
        if !c.boundary_task then { c with boundary_task := true } else c
      else c
  | .BUTTON_PRESS_UP =>
      if c.button_held then controller_stop c else c

/-- `boundary_check_task` (controller.cpp:452-467), unfolded over the finite
list of raw ADC samples its successive 100 ms poll cycles would consume (one
list entry = one poll cycle). Each cycle first checks the
`g_button_held && motor_is_moving()` guard, then runs
`controller_check_boundaries_and_stop` and exits on a stop; on exit the task
clears its own handle (`boundary_task := false`). An exhausted sample list
leaves the still-running task as is. -/
def boundary_check_task (c : CtrlState) : List Int → CtrlState
  | [] => c
  | raw :: raws =>
      if c.button_held && motor_is_moving c.motor then
        let r := controller_check_boundaries_and_stop c raw
        if r.1 then { r.2 with boundary_task := false }
        else boundary_check_task r.2 raws
      else { c with boundary_task := false }

/-- Delivers a list of button events through `controller_button_callback`
(the single consumer task of button_handler.cpp invokes the callback once
per dequeued event, in order); each event carries the raw ADC samples its
handling consumes. -/
def run_events (zebraSupport : Bool) (nvs : NvsData) :
    CtrlState → List (button_event_t × button_id_t × List Int) → CtrlState
  | c, [] => c
  | c, (ev, bid, raws) :: rest =>
      run_events zebraSupport nvs
        (controller_button_callback zebraSupport nvs c ev bid raws) rest

/-- The `pdMS_TO_TICKS(100)` simultaneity threshold of
`check_simultaneous_press_task` (button_handler.cpp:67), with ticks
modelled as milliseconds. -/
def simultaneous_threshold : Nat := 100

/-- The loop-local state of `check_simultaneous_press_task`
(button_handler.cpp:63-98). -/
structure SimPressState where
  both_pressed : Bool
  press_start_time : Nat
deriving DecidableEq

/-- One 10 ms poll iteration of `check_simultaneous_press_task`
(button_handler.cpp:69-97): `now` is the tick count, `up_pressed` /
`down_pressed` the sampled button levels. Returns the new loop state and
whether a `SimultaneousPress` event was enqueued this iteration (the
enqueue happens exactly when both buttons had become held together and one
is released before the 100 ms threshold; tick subtraction is uint32). -/
def check_simultaneous_press_step (s : SimPressState) (now : Nat)
    (up_pressed down_pressed : Bool) : SimPressState × Bool :=
  if up_pressed && down_pressed && !s.both_pressed then
    ({ both_pressed := true, press_start_time := now }, false)
  else if !up_pressed || !down_pressed then
    let emit := s.both_pressed && decide (u32sub now s.press_start_time < simultaneous_threshold)
    ({ s with both_pressed := false }, emit)
  else (s, false)

/-- Runs `check_simultaneous_press_step` over a trace of 10 ms poll samples
`(tick, up_pressed, down_pressed)` and counts the `SimultaneousPress` events
enqueued. -/
def check_simultaneous_press_run (s : SimPressState) :
    List (Nat × Bool × Bool) → Nat
  | [] => 0
  | (now, up, down) :: rest =>
      let r := check_simultaneous_press_step s now up down
      (if r.2 then 1 else 0) + check_simultaneous_press_run r.1 rest

/-! Concrete states used by the theorems. -/

/-- Boot sensor state after a successful `set_calibration(100, 3900)`. -/
def c3_sensor : SensorState := position_sensor_set_calibration sensor_boot 100 3900

/-- Controller state: idle, calibrated `[100, 3900]`. -/
def c5_ctrl : CtrlState := { controller_boot with sensor := c3_sensor }

/-- Controller state after the calibrated idle state handled
`SingleClick(Down)` with ADC samples reading position 2000: the controller
is moving down toward the bottom bound with `g_button_held` still false. -/
def c5_after_click : CtrlState :=
  controller_button_callback false nvs_absent c5_ctrl
    .BUTTON_SINGLE_CLICK .BUTTON_ID_DOWN [10000, 0]

/-- The previous state after a further Release (`BUTTON_PRESS_UP`) event. -/
def c5_after_release : CtrlState :=
  controller_button_callback false nvs_absent c5_after_click
    .BUTTON_PRESS_UP .BUTTON_ID_DOWN []

/-- Controller state: calibrated `[100, 3900]`, long-press hold active,
motor moving — the configuration in which the boundary-check task runs. -/
def c4_ctrl : CtrlState :=
  { controller_boot with
    button_held := true
    motor := { direction := .MOTOR_DIR_DOWN, speed := 1000, moving := true }
    sensor := c3_sensor }

/-- Controller state: calibrated `[100, 3900]` with zebra offset 50. -/
def c6_ctrl : CtrlState :=
  { controller_boot with sensor := { c3_sensor with calibration_zebra_offset := 50 } }

/-- The zebra build's double-click from `c6_ctrl` at position 3900 (raw
sample 19500 averages to 3900 over the fresh filter buffer). -/
def c6_after : CtrlState :=
  controller_button_callback true nvs_absent c6_ctrl
    .BUTTON_DOUBLE_CLICK .BUTTON_ID_UP [19500, 0, 0]

/-- The end-to-end calibration scenario of the spec: from boot,
`SimultaneousPress`, then `SingleClick`s whose ADC samples would read
positions 100 (raw 500) and 3900 (raw 19500). -/
def c2_events : List (button_event_t × button_id_t × List Int) :=
  [ (.BUTTON_EVENT_SIMULTANEOUS_PRESS, .BUTTON_ID_UP, [])
  , (.BUTTON_SINGLE_CLICK, .BUTTON_ID_UP, [500, 0])
  , (.BUTTON_SINGLE_CLICK, .BUTTON_ID_DOWN, [19500, 0]) ]

/-- Sensor state mid-calibration at step `LOWER` with `upper = 100`
already captured. -/
def c9_sensor : SensorState :=
  { sensor_boot with
    current_calibration_step := .lower
    calibration_upper_position := 100 }

/-- Poll trace of `check_simultaneous_press_task`: both buttons held at
ticks 0..40, released by tick 50 (a 50 ms simultaneous tap). -/
def sim_press_trace_50 : List (Nat × Bool × Bool) :=
  (List.range 5).map (fun i => (10 * i, true, true)) ++ [(50, false, false), (60, false, false)]

/-- Poll trace: both buttons held at ticks 0..490, released by tick 500
(a 500 ms dual hold). -/
def sim_press_trace_500 : List (Nat × Bool × Bool) :=
  (List.range 50).map (fun i => (10 * i, true, true)) ++ [(500, false, false), (510, false, false)]

/-! The claims. -/

/-- C1: delivering `SimultaneousPress` in `Idle` does stop the motor, but the
controller does NOT end in `CALIBRATING`: `controller_calibrate` sets
`CALIBRATING` and then calls `controller_stop`, which overwrites the state
with `IDLE`; and the first prompt shown is for the `Lower` step, because the
prompt uses `position_sensor_next_calibration_step`, which advances past
`Upper`. Evaluated at the boot state. -/
theorem simultaneous_press_in_idle_lands_in_idle :
    controller_get_state (controller_button_callback false nvs_absent controller_boot
        .BUTTON_EVENT_SIMULTANEOUS_PRESS .BUTTON_ID_UP []) = state_t.IDLE
    ∧ (controller_button_callback false nvs_absent controller_boot
        .BUTTON_EVENT_SIMULTANEOUS_PRESS .BUTTON_ID_UP []).last_prompt =
        some calibration_step_t.lower
    ∧ motor_is_moving (controller_button_callback false nvs_absent controller_boot
        .BUTTON_EVENT_SIMULTANEOUS_PRESS .BUTTON_ID_UP []).motor = false := by
  decide

/-- C2: the guided end-to-end calibration sequence (SimultaneousPress, then
SingleClicks with captured positions 100 and 3900) does NOT complete
calibration: after the SimultaneousPress the state is `IDLE` (not
`CALIBRATING`), so each SingleClick takes the goto-top/bottom branch instead
of the calibration branch, nothing is saved, and `is_calibrated()` stays
false. -/
theorem guided_calibration_never_completes :
    position_sensor_is_calibrated
        (run_events false nvs_absent controller_boot c2_events).sensor = false
    ∧ controller_get_state (run_events false nvs_absent controller_boot c2_events) =
        state_t.IDLE := by
  decide

/-- C3 counterexample: calibrated to `[100, 3900]` straight after boot, a
read whose raw sample is negative returns the cached `current_position`,
which is still the boot value 0 — strictly below `min_position`. -/
theorem read_error_path_returns_value_below_min :
    position_sensor_is_calibrated c3_sensor = true
    ∧ (position_sensor_read c3_sensor (-1)).1 = 0
    ∧ (position_sensor_read c3_sensor (-1)).1 < position_sensor_get_min_position c3_sensor := by
  decide

/-- C5 counterexample: from the calibrated idle state, `SingleClick(Down)`
puts the controller in `MOVING_DOWN` with `g_button_held` false; a
subsequent Release (`BUTTON_PRESS_UP`) event is ignored — the state stays
`MOVING_DOWN` and the motor keeps moving. -/
theorem release_ignored_after_click_motion :
    controller_get_state c5_after_click = state_t.MOVING_DOWN
    ∧ c5_after_click.button_held = false
    ∧ controller_get_state c5_after_release = state_t.MOVING_DOWN
    ∧ motor_is_moving c5_after_release.motor = true := by
  decide

/-- C6: with calibrated bounds `[100, 3900]`, zebra offset 50 and current
position 3900, the zebra double-click computes target 3950 — beyond the
calibrated `max_position` 3900 — because `controller_handle_zebra_offset`
clamps against the hardcoded 0/4095 instead of the calibrated getters (which
are commented out in the source). -/
theorem zebra_target_beyond_calibrated_bound :
    c6_after.current_position = 3950
    ∧ position_sensor_get_max_position c6_after.sensor = 3900
    ∧ position_sensor_get_max_position c6_after.sensor < c6_after.current_position := by
  decide

/-- C7: on the 10 ms poll traces of `check_simultaneous_press_task`, holding
both buttons for 50 ms and then releasing enqueues exactly one
`SimultaneousPress` event, while holding both for 500 ms enqueues zero (the
held duration 500 is not under the 100 ms simultaneity threshold). -/
theorem simultaneous_press_event_counts :
    check_simultaneous_press_run ⟨false, 0⟩ sim_press_trace_50 = 1
    ∧ check_simultaneous_press_run ⟨false, 0⟩ sim_press_trace_500 = 0 := by
  decide

/-- C3 (amended): once calibrated (with coherent bounds), a read whose raw
sample is non-negative always returns a value within
`[min_position, max_position]`; the recovery path (negative sample) returns
the cached current position, so its result is within bounds whenever the
cache is — which the counterexample shows need not hold before the first
successful read after calibration. -/
theorem read_in_bounds_amended (s : SensorState) (raw_value : Int)
    (_hcal : position_sensor_is_calibrated s = true)
    (hmm : s.position_config.min_position ≤ s.position_config.max_position)
    (hcache : raw_value < 0 →
      s.position_config.min_position ≤ s.position_config.current_position ∧
        s.position_config.current_position ≤ s.position_config.max_position) :
    s.position_config.min_position ≤ (position_sensor_read s raw_value).1 ∧
      (position_sensor_read s raw_value).1 ≤ s.position_config.max_position := by
  by_cases h : raw_value < 0
  · simpa [position_sensor_read, h] using hcache h
  · simp only [position_sensor_read, if_neg h]
    constructor <;> · dsimp only; split_ifs <;> omega

/-- Witness for `read_in_bounds_amended` at the calibrated boot sensor and a
raw sample of 2000. -/
theorem read_in_bounds_amended_witness :
    100 ≤ (position_sensor_read c3_sensor 2000).1 ∧
      (position_sensor_read c3_sensor 2000).1 ≤ 3900 :=
  read_in_bounds_amended c3_sensor 2000 rfl (by decide)
    (fun h => absurd h (by decide))

/-- Helper: `controller_stop` always leaves the state `IDLE`. -/
theorem controller_stop_state (c : CtrlState) :
    (controller_stop c).state = state_t.IDLE := rfl

/-- Helper: after `controller_stop` the motor is not moving, whether or not
it was moving before (the stop is idempotent). -/
theorem controller_stop_not_moving (c : CtrlState) :
    motor_is_moving (controller_stop c).motor = false := by
  unfold controller_stop motor_is_moving motor_stop
  dsimp only
  split
  · rfl
  · next hmov => simpa using hmov

/-- C4: whenever the boundary-check task's guard holds (button still held
and motor moving), the sensed position is calibrated, and the position read
in a poll cycle is at or beyond either calibrated bound, that very cycle
commands the motor to stop and returns the controller to `Idle` — i.e.
within one poll cycle (the 100 ms delay is modelled as one list entry of the
task's unfolding). -/
theorem boundary_stop_within_one_cycle (c : CtrlState) (raw_value : Int) (raws : List Int)
    (hheld : c.button_held = true)
    (hmoving : motor_is_moving c.motor = true)
    (hcal : position_sensor_is_calibrated c.sensor = true)
    (hbound :
      (position_sensor_read c.sensor raw_value).1 ≤
          position_sensor_get_min_position (position_sensor_read c.sensor raw_value).2 ∨
        (position_sensor_read c.sensor raw_value).1 ≥
          position_sensor_get_max_position (position_sensor_read c.sensor raw_value).2) :
    motor_is_moving (boundary_check_task c (raw_value :: raws)).motor = false ∧
      controller_get_state (boundary_check_task c (raw_value :: raws)) = state_t.IDLE := by
  have hm : c.motor.moving = true := hmoving
  have hcond : ((position_sensor_read c.sensor raw_value).1 ≤
      position_sensor_get_min_position (position_sensor_read c.sensor raw_value).2 ||
      (position_sensor_read c.sensor raw_value).1 ≥
      position_sensor_get_max_position (position_sensor_read c.sensor raw_value).2) = true := by
    rcases hbound with h | h <;> simp [h]
  have hcheck : controller_check_boundaries_and_stop c raw_value =
      (true, controller_stop
        { c with sensor := (position_sensor_read c.sensor raw_value).2 }) := by
    simp [controller_check_boundaries_and_stop, hcal, hcond]
  have htask : boundary_check_task c (raw_value :: raws) =
      { controller_stop { c with sensor := (position_sensor_read c.sensor raw_value).2 }
          with boundary_task := false } := by
    simp [boundary_check_task, hheld, hm, motor_is_moving, hcheck]
  rw [htask]
  exact ⟨controller_stop_not_moving
      { c with sensor := (position_sensor_read c.sensor raw_value).2 },
    controller_stop_state
      { c with sensor := (position_sensor_read c.sensor raw_value).2 }⟩

/-- Witness for `boundary_stop_within_one_cycle`: long-press hold with the
motor moving, calibrated `[100, 3900]`, and a poll whose raw sample 19500
reads as position 3900, at the max bound. -/
theorem boundary_stop_within_one_cycle_witness :
    motor_is_moving (boundary_check_task c4_ctrl [19500]).motor = false ∧
      controller_get_state (boundary_check_task c4_ctrl [19500]) = state_t.IDLE :=
  boundary_stop_within_one_cycle c4_ctrl 19500 [] rfl rfl rfl (Or.inr (by decide))

/-- C5 (amended): a Release (`BUTTON_PRESS_UP`) event stops the motor and
returns the controller to `Idle` exactly when `g_button_held` is set (i.e.
the current motion was started by a long press); when the flag is clear — as
after single-click target motion — the Release event leaves the controller
state unchanged. -/
theorem release_stops_iff_button_held (zebraSupport : Bool) (nvs : NvsData)
    (c : CtrlState) (bid : button_id_t) (raws : List Int) :
    (c.button_held = true →
      controller_get_state
          (controller_button_callback zebraSupport nvs c .BUTTON_PRESS_UP bid raws) =
        state_t.IDLE ∧
      motor_is_moving
          (controller_button_callback zebraSupport nvs c .BUTTON_PRESS_UP bid raws).motor =
        false) ∧
    (c.button_held = false →
      controller_button_callback zebraSupport nvs c .BUTTON_PRESS_UP bid raws = c) := by
  constructor
  · intro h
    have hcb : controller_button_callback zebraSupport nvs c .BUTTON_PRESS_UP bid raws =
        controller_stop c := by
      simp [controller_button_callback, h]
    rw [hcb]
    exact ⟨controller_stop_state c, controller_stop_not_moving c⟩
  · intro h
    simp [controller_button_callback, h]

/-- Witness for `release_stops_iff_button_held` at the long-press-hold state
`c4_ctrl`. -/
theorem release_stops_iff_button_held_witness :
    controller_get_state
        (controller_button_callback false nvs_absent c4_ctrl .BUTTON_PRESS_UP .BUTTON_ID_UP []) =
      state_t.IDLE :=
  ((release_stops_iff_button_held false nvs_absent c4_ctrl .BUTTON_ID_UP []).1 rfl).1

/-- C8: after `start_step_calibration` the step is `Upper`; repeated
`next_step()` calls then produce `Lower`, `Complete` when zebra support is
disabled and `Lower`, `ZebraOffset`, `Complete` when enabled; and from any
state whose step is `Complete`, `next_step()` returns `Complete` again. -/
theorem calibration_step_sequence (zebraSupport : Bool) (nvs : NvsData)
    (s0 s : SensorState) :
    (position_sensor_start_calibration zebraSupport nvs s0).current_calibration_step =
        calibration_step_t.upper
    ∧ (zebraSupport = false →
        (position_sensor_next_calibration_step
            (position_sensor_start_calibration zebraSupport nvs s0)).1 =
          calibration_step_t.lower
        ∧ (position_sensor_next_calibration_step
            (position_sensor_next_calibration_step
              (position_sensor_start_calibration zebraSupport nvs s0)).2).1 =
          calibration_step_t.complete)
    ∧ (zebraSupport = true →
        (position_sensor_next_calibration_step
            (position_sensor_start_calibration zebraSupport nvs s0)).1 =
          calibration_step_t.lower
        ∧ (position_sensor_next_calibration_step
            (position_sensor_next_calibration_step
              (position_sensor_start_calibration zebraSupport nvs s0)).2).1 =
          calibration_step_t.zebra_offset
        ∧ (position_sensor_next_calibration_step
            (position_sensor_next_calibration_step
              (position_sensor_next_calibration_step
                (position_sensor_start_calibration zebraSupport nvs s0)).2).2).1 =
          calibration_step_t.complete)
    ∧ (s.current_calibration_step = calibration_step_t.complete →
        (position_sensor_next_calibration_step s).1 = calibration_step_t.complete) := by
  obtain ⟨o, u, l, z⟩ := nvs
  refine ⟨rfl, ?_, ?_, ?_⟩
  · rintro rfl
    cases o <;> exact ⟨rfl, rfl⟩
  · rintro rfl
    cases o <;> exact ⟨rfl, rfl, rfl⟩
  · intro h
    simp [position_sensor_next_calibration_step, h]

/-- Witness for `calibration_step_sequence` in the zebra-enabled build from
the boot sensor (whose step is `Complete`, so the idempotence hypothesis is
dischargeable too). -/
theorem calibration_step_sequence_witness :
    (position_sensor_next_calibration_step
        (position_sensor_start_calibration true nvs_absent sensor_boot)).1 =
      calibration_step_t.lower
    ∧ (position_sensor_next_calibration_step sensor_boot).1 = calibration_step_t.complete :=
  ⟨((calibration_step_sequence true nvs_absent sensor_boot sensor_boot).2.2.1 rfl).1,
    (calibration_step_sequence true nvs_absent sensor_boot sensor_boot).2.2.2 rfl⟩

/-- C9: with the current step `Lower`, `save_step(position)` stores
`lower_position := position` and commits
`set_calibration(upper_position, position)` — new bounds and the calibrated
flag — if and only if `upper_position < position`; when
`upper_position ≥ position` the effective `position_config` (bounds and
calibrated flag) is left fully unchanged, while the step itself is untouched
and can still advance to the next step of the sequence. -/
theorem save_lower_commits_iff_ordered (s : SensorState) (position : Nat)
    (hstep : s.current_calibration_step = calibration_step_t.lower) :
    (position_sensor_save_calibration_step s position).calibration_lower_position = position
    ∧ (s.calibration_upper_position < position →
        position_sensor_get_min_position (position_sensor_save_calibration_step s position) =
          s.calibration_upper_position
        ∧ position_sensor_get_max_position (position_sensor_save_calibration_step s position) =
          position
        ∧ position_sensor_is_calibrated (position_sensor_save_calibration_step s position) =
          true)
    ∧ (position ≤ s.calibration_upper_position →
        (position_sensor_save_calibration_step s position).position_config =
          s.position_config)
    ∧ (position_sensor_save_calibration_step s position).current_calibration_step =
        calibration_step_t.lower
    ∧ (position_sensor_next_calibration_step
        (position_sensor_save_calibration_step s position)).1 =
        (if s.calibration_zebra_enabled then calibration_step_t.zebra_offset
          else calibration_step_t.complete) := by
  obtain ⟨pc, fb, fi, step, up, lo, zo, ze⟩ := s
  cases hstep
  by_cases hord : up < position
  · have hng : ¬ up ≥ position := by omega
    have hsave :
        position_sensor_save_calibration_step ⟨pc, fb, fi, .lower, up, lo, zo, ze⟩ position =
          ⟨⟨up, position, pc.current_position, true⟩, fb, fi, .lower, up, position, zo, ze⟩ := by
      simp only [position_sensor_save_calibration_step, position_sensor_set_calibration,
        if_pos hord, if_neg hng]
    rw [hsave]
    refine ⟨rfl, fun _ => ⟨rfl, rfl, rfl⟩, fun hle => absurd hord (Nat.not_lt.mpr hle), rfl, ?_⟩
    cases ze <;> rfl
  · have hsave :
        position_sensor_save_calibration_step ⟨pc, fb, fi, .lower, up, lo, zo, ze⟩ position =
          ⟨pc, fb, fi, .lower, up, position, zo, ze⟩ := by
      simp only [position_sensor_save_calibration_step, if_neg hord]
    rw [hsave]
    refine ⟨rfl, fun hlt => absurd hlt hord, fun _ => rfl, rfl, ?_⟩
    cases ze <;> rfl

/-- Witness for `save_lower_commits_iff_ordered`: step `Lower`, captured
`upper = 100`, saving `lower = 3900` commits and calibrates. -/
theorem save_lower_commits_iff_ordered_witness :
    position_sensor_is_calibrated (position_sensor_save_calibration_step c9_sensor 3900) =
      true :=
  ((save_lower_commits_iff_ordered c9_sensor 3900 rfl).2.1 (by decide)).2.2

/-- Clamping the percentage twice equals clamping it once. -/
theorem clamp_percentage_idem (p : ℚ) :
    clamp_percentage (clamp_percentage p) = clamp_percentage p := by
  simp only [clamp_percentage]
  split_ifs <;> first | rfl | linarith

/-- The percentage clamp is the `min`/`max` clamp to `[0, 100]`. -/
theorem clamp_percentage_eq_min_max (p : ℚ) :
    clamp_percentage p = min (max p 0) 100 := by
  simp only [clamp_percentage, min_def, max_def]
  split_ifs <;> first | rfl | linarith

/-- C10: `controller_set_position_percentage` behaves identically to a call
with the argument clamped to `[0, 100]` (the clamp being
`min(max(p, 0), 100)`); and, with coherent calibrated bounds, a clamped
input below 0 yields the target `min_position` while a clamped input above
100 yields the target `max_position`. -/
theorem set_position_percentage_clamps (c : CtrlState) (p : ℚ) (r1 r2 r3 r4 : Int)
    (hmm : position_sensor_get_min_position c.sensor ≤
      position_sensor_get_max_position c.sensor)
    (hlt : position_sensor_get_max_position c.sensor < U32) :
    controller_set_position_percentage c p r1 r2 r3 r4 =
        controller_set_position_percentage c (clamp_percentage p) r1 r2 r3 r4
    ∧ clamp_percentage p = min (max p 0) 100
    ∧ (p < 0 →
        percentage_target (position_sensor_get_min_position c.sensor)
            (position_sensor_get_max_position c.sensor) (clamp_percentage p) =
          position_sensor_get_min_position c.sensor)
    ∧ (100 < p →
        percentage_target (position_sensor_get_min_position c.sensor)
            (position_sensor_get_max_position c.sensor) (clamp_percentage p) =
          position_sensor_get_max_position c.sensor) := by
  refine ⟨?_, clamp_percentage_eq_min_max p, ?_, ?_⟩
  · simp only [controller_set_position_percentage, clamp_percentage_idem]
  · intro hp
    have h0 : clamp_percentage p = 0 := by
      simp only [clamp_percentage]
      split_ifs <;> first | rfl | linarith
    rw [h0]
    simp only [percentage_target, mul_zero, zero_div, Int.floor_zero, Int.toNat_zero,
      add_zero]
    simp only [position_sensor_get_min_position, position_sensor_get_max_position,
      U32] at hmm hlt ⊢
    omega
  · intro hp
    have h100 : clamp_percentage p = 100 := by
      simp only [clamp_percentage]
      split_ifs <;> first | rfl | linarith
    rw [h100]
    simp only [percentage_target]
    have hfl : (Int.floor (((u32sub (position_sensor_get_max_position c.sensor)
        (position_sensor_get_min_position c.sensor) : Nat) : ℚ) * 100 / 100)).toNat =
        u32sub (position_sensor_get_max_position c.sensor)
          (position_sensor_get_min_position c.sensor) := by
      rw [mul_div_assoc]
      norm_num
    rw [hfl]
    simp only [position_sensor_get_min_position, position_sensor_get_max_position,
      u32sub, U32] at hmm hlt ⊢
    omega

/-- Witness for `set_position_percentage_clamps` at the calibrated idle
state `c5_ctrl` (bounds `[100, 3900]`) and input percentage −1. -/
theorem set_position_percentage_clamps_witness :
    percentage_target 100 3900 (clamp_percentage (-1)) = 100 :=
  (set_position_percentage_clamps c5_ctrl (-1) 0 0 0 0 (by decide) (by decide)).2.2.1
    (by norm_num)

end Esp32H6
